import Mathlib

/-
Verification of the persistent duplex connection manager of PythonMoonraker
(src/websocket.py, class MoonrakerWS) against its natural-language
specification.  The Python code is shallowly embedded: decoded JSON values
become an inductive type, Python dicts become association lists with unique
keys, the socket becomes a queue of incoming events, and the stateful methods
become pure functions from a pre-state to a post-state.
-/

/-- Decoded JSON values, as produced by Python `json.loads`.  Objects are
association lists in insertion order, mirroring Python dicts. -/
inductive Json where
  | null
  | bool (b : Bool)
  | num (n : Int)
  | str (s : String)
  | arr (elems : List Json)
  | obj (fields : List (String × Json))

/-- Python truthiness of a decoded JSON value; `not params[param]` in
`MoonrakerWS.__ws_call` (src/websocket.py line 157) tests exactly this. -/
def Json.falsy : Json → Bool
  | .null => true
  | .bool b => !b
  | .num n => n == 0
  | .str s => s == ""
  | .arr l => l.isEmpty
  | .obj l => l.isEmpty

/-- Field lookup on a decoded JSON object; `none` when the value is not an
object or the key is absent. -/
def jsonLookup : Json → String → Option Json
  | .obj fields, k => (fields.find? (fun kv => kv.1 == k)).map (fun kv => kv.2)
  | _, _ => none

/-- Python `response.get(k, dflt)`: returns the field or the default on a
dict, and raises `AttributeError` (modelled as `none`) on any other value.
Used for the `result` lookup with an empty-dict default in `__ws_call` (line 168). -/
def pyGet : Json → String → Json → Option Json
  | .obj fields, k, dflt =>
      some ((((fields.find? (fun kv => kv.1 == k)).map (fun kv => kv.2))).getD dflt)
  | _, _, _ => none

/-- Lookup in a Python dict modelled as an association list. -/
def dictFind (d : List (String × Json)) (k : String) : Option Json :=
  (d.find? (fun kv => kv.1 == k)).map (fun kv => kv.2)

/-- Python `dict.pop(k)`: removes the first (with unique keys, the only)
entry with key `k`. -/
def dictPop (d : List (String × Json)) (k : String) : List (String × Json) :=
  d.eraseP (fun kv => kv.1 == k)

/-- The loop `for param in params.copy().keys(): if not params[param]:
params.pop(param)` of `__ws_call` (lines 156-157): iterates over a snapshot
of the keys, popping every entry whose current value is falsy. -/
def popFalsy : List String → List (String × Json) → List (String × Json)
  | [], d => d
  | k :: ks, d =>
      match dictFind d k with
      | some v => popFalsy ks (if v.falsy then dictPop d k else d)
      | none => popFalsy ks d

/-- Python `d[k] = v` on a dict: overwrites in place (keeping the position
of the entry) when the key exists, appends otherwise. -/
def dictSet (d : List (String × Json)) (k : String) (v : Json) : List (String × Json) :=
  if d.any (fun kv => kv.1 == k) then
    d.map (fun kv => if kv.1 == k then (k, v) else kv)
  else d ++ [(k, v)]

/-- One event produced by `await self.ws.recv()`: a text frame (carrying the
result of `json.loads`, `none` when decoding raises), a graceful close
(`ConnectionClosedOK`) or an abnormal close (`ConnectionClosedError`). -/
inductive Msg where
  | frame (decoded : Option Json)
  | closedOK
  | closedErr

/-- The instance state read by `__ws_call`: `self.ws` (an open socket with
its queue of future incoming events, or `None`), `self.username` and
`self.password`. -/
structure WSCallEnv where
  ws : Option (List Msg)
  username : Option String
  password : Option String

/-- Observable outcome of one `__ws_call` invocation: the Python return
value (`none` is Python `None`), the `params` dict of the caller after the call
(the code mutates it in place), the JSON-RPC envelopes sent on the socket,
and the socket afterwards. -/
structure WSCallOut where
  ret : Option Json
  params : List (String × Json)
  sent : List Json
  ws : Option (List Msg)

/-- The JSON-RPC method derived from the REST path (line 163): strip the
leading slashes, then replace every remaining slash with a dot. -/
def methodOf (path : String) : String :=
  String.mk ((path.data.dropWhile (fun c => c == '/')).map
    (fun c => if c == '/' then '.' else c))

/-- The request envelope built and sent by `__ws_call` (lines 161-166). -/
def wsEnvelope (path : String) (p : List (String × Json)) (genId : Nat) : Json :=
  Json.obj [("jsonrpc", Json.str "2.0"), ("method", Json.str (methodOf path)),
    ("params", Json.obj p), ("id", Json.num (Int.ofNat genId))]

/-- Credential injection of `__ws_call` (lines 158-159): when
`self.username` is truthy it is stored under the `username` key, and
likewise the password; Python truthiness makes `None` and the empty string
skip the assignment. -/
def credAdd (env : WSCallEnv) (p : List (String × Json)) : List (String × Json) :=
  let p2 := match env.username with
    | some u => if u == "" then p else dictSet p "username" (Json.str u)
    | none => p
  match env.password with
  | some w => if w == "" then p2 else dictSet p2 "password" (Json.str w)
  | none => p2

/-- `MoonrakerWS.__ws_call` (src/websocket.py lines 151-172).  With no open
socket it prints and returns `None`.  Otherwise it strips falsy params in
place, injects credentials, sends one JSON-RPC envelope with a freshly
generated id (`random.randint(0, 99999999)`, passed here as `genId`), then
returns the `result` field (empty-dict default) of the next event `recv`
yields; any
exception in the try block (connection closed, JSON decode failure, `.get`
on a non-dict, or `recv` failing with no frame available) is caught and the
call returns `None`. -/
def ws_call (env : WSCallEnv) (path : String) (params : List (String × Json))
    (genId : Nat) : WSCallOut :=
  match env.ws with
  | none => ⟨none, params, [], none⟩
  | some q =>
    let p3 := credAdd env (popFalsy (params.map (fun kv => kv.1)) params)
    let envl := wsEnvelope path p3 genId
    match q with
    | [] => ⟨none, p3, [envl], some []⟩
    | Msg.frame (some j) :: rest =>
        match pyGet j "result" (Json.obj []) with
        | some r => ⟨some r, p3, [envl], some rest⟩
        | none => ⟨none, p3, [envl], some rest⟩
    | Msg.frame none :: rest => ⟨none, p3, [envl], some rest⟩
    | Msg.closedOK :: rest => ⟨none, p3, [envl], some rest⟩
    | Msg.closedErr :: rest => ⟨none, p3, [envl], some rest⟩

/-- State observed and mutated by the receive loop `_async_ws_receive`
(src/websocket.py lines 71-99): the socket (`self.ws`) with its queue of
future incoming events, a script of the outcomes of future
`_async_ws_connect` attempts (each `some q` is a successful open yielding a
socket with future events `q`, `none` a failed open), whether
`self._message_handler` is registered (truthy), and the trace of payloads
the handler has been invoked with. -/
structure LoopState where
  ws : Option (List Msg)
  connects : List (Option (List Msg))
  handlerRegistered : Bool
  handlerCalls : List Json

/-- Result of one iteration of the `while True` body of `_async_ws_receive`:
either the loop continues with a new state (possibly after a sleep) or the
`break` on line 92 exits it. -/
inductive StepOut where
  | cont (s : LoopState)
  | brk (s : LoopState)

/-- The `try`/`except` part of one receive-loop iteration (lines 80-99),
given the queue `q` of the socket: a decoded frame is handed to the registered
handler; a frame whose decoding raises is logged and discarded (sleep 1,
socket kept); `ConnectionClosedOK` drops the socket and breaks out of the
loop; `ConnectionClosedError` drops the socket, sleeps 5 and continues.  An
empty queue means `recv` is still pending; the iteration is modelled as
leaving the state unchanged. -/
def recvStep (s : LoopState) (q : List Msg) : StepOut :=
  match q with
  | [] => StepOut.cont { s with ws := some [] }
  | Msg.frame (some j) :: rest =>
      StepOut.cont { s with
        ws := some rest,
        handlerCalls :=
          if s.handlerRegistered then s.handlerCalls ++ [j] else s.handlerCalls }
  | Msg.frame none :: rest => StepOut.cont { s with ws := some rest }
  | Msg.closedOK :: _ => StepOut.brk { s with ws := none }
  | Msg.closedErr :: _ => StepOut.cont { s with ws := none }

/-- One full iteration of the `while True` body of `_async_ws_receive`
(lines 73-99).  With no socket it attempts `_async_ws_connect` (next
scripted outcome; an exhausted script counts as a failed attempt): on
failure it sleeps 5 and continues, on success it falls through to the
receive step in the same iteration, exactly as the source does. -/
def loopStep (s : LoopState) : StepOut :=
  match s.ws with
  | some q => recvStep s q
  | none =>
      match s.connects with
      | [] => StepOut.cont s
      | none :: cs => StepOut.cont { s with connects := cs }
      | some q :: cs => recvStep { s with ws := some q, connects := cs } q

/-- Instance state touched by `start_websocket_loop` (lines 102-117) and
`stop_websocket_loop` (lines 131-148): the loop thread (`none` before any
start, otherwise whether it is alive), whether the event loop is running,
the registered handler (abstracted to a token), the socket, whether the
receive task is active, a count of threads ever spawned (instrumentation for
the no-second-thread property), and the script of `_async_ws_connect`
outcomes used by `_initial_setup`. -/
structure MgrState where
  loopThread : Option Bool
  eventLoopRunning : Bool
  handler : Option Nat
  ws : Option (List Msg)
  receiveTaskActive : Bool
  threadsSpawned : Nat
  connects : List (Option (List Msg))

/-- `MoonrakerWS.start_websocket_loop` (lines 102-117).  If the loop thread
is alive it only prints and returns.  Otherwise it registers the handler,
creates a new event loop, spawns the loop thread, and runs
`_initial_setup` (lines 120-124): connect, and if the socket opened, create
the receive task. -/
def start_websocket_loop (m : MgrState) (hdlr : Nat) : MgrState :=
  if m.loopThread = some true then m
  else
    let m1 := { m with handler := some hdlr, eventLoopRunning := true,
                       loopThread := some true,
                       threadsSpawned := m.threadsSpawned + 1 }
    match m1.connects with
    | [] => { m1 with ws := none }
    | o :: rest =>
      let m2 := { m1 with connects := rest, ws := o }
      if m2.ws.isSome then { m2 with receiveTaskActive := true } else m2

/-- `MoonrakerWS.stop_websocket_loop` (lines 131-148).  If the event loop is
running: cancel the receive task, schedule `_async_ws_close` as a task on
the loop, stop the event loop and join the thread.  The stop callback is
enqueued right behind the close task, so the close coroutine never runs
before `run_forever` exits — `self.ws` is not cleared on this path and the
socket object is left behind unclosed.  Otherwise the method only prints
and returns. -/
def stop_websocket_loop (m : MgrState) : MgrState :=
  if m.eventLoopRunning then
    { m with receiveTaskActive := false, eventLoopRunning := false,
             loopThread := some false }
  else m

/-- Python `str.replace` specialised to the separator tested by
`MoonrakerWS.__init__` (line 27): removes every occurrence of `://`. -/
def removeSep : List Char → List Char
  | ':' :: '/' :: '/' :: rest => removeSep rest
  | c :: rest => c :: removeSep rest
  | [] => []

/-- Python `in` on a string: character membership. -/
def pyContains (c : Char) (s : List Char) : Bool :=
  s.any (fun x => x == c)

/-- Python `str.rstrip` with the slash character: removes all trailing
slashes. -/
def pyRstrip (c : Char) (s : List Char) : List Char :=
  (s.reverse.dropWhile (fun x => x == c)).reverse

/-- The characters of the scheme string prepended by `__init__` (line 26). -/
def wsScheme : List Char := "ws://".data

/-- The characters of the default port appended by `__init__` (line 28). -/
def portSeg : List Char := ":7125".data

/-- The characters of the path appended by `__init__` (line 30). -/
def wsPath : List Char := "/websocket".data

/-- Line 25-26 of `__init__`: prepend `ws://` unless the URL already starts
with it. -/
def addScheme (u : List Char) : List Char :=
  if wsScheme.isPrefixOf u then u else wsScheme ++ u

/-- Line 27-28 of `__init__`: append `:7125` when the URL with all `://`
occurrences removed contains no colon. -/
def addPort (u : List Char) : List Char :=
  if pyContains ':' (removeSep u) then u else u ++ portSeg

/-- Line 29-30 of `__init__`: unless the URL already ends with `/websocket`,
strip trailing slashes and append `/websocket`. -/
def addPath (u : List Char) : List Char :=
  if wsPath.isSuffixOf u then u else pyRstrip '/' u ++ wsPath

/-- The full URL normalisation performed by `MoonrakerWS.__init__`
(src/websocket.py lines 25-30) on the `url` argument of the constructor. -/
def initUrl (u : List Char) : List Char := addPath (addPort (addScheme u))

/-- A JSON-RPC response frame carrying correlation id 1 and result
`"other"`. -/
def c1frame : Json :=
  Json.obj [("jsonrpc", Json.str "2.0"), ("result", Json.str "other"),
    ("id", Json.num 1)]

/-- An open socket whose next incoming frame is `c1frame`. -/
def c1env : WSCallEnv := ⟨some [Msg.frame (some c1frame)], none, none⟩

/-- A JSON-RPC error response: the server answers with an `error` object and
no `result` field. -/
def c2resp : Json :=
  Json.obj [("jsonrpc", Json.str "2.0"),
    ("error", Json.obj [("code", Json.num 400), ("message", Json.str "Bad Request")]),
    ("id", Json.num 7)]

/-- An open socket whose next incoming frame is the error response. -/
def c2env : WSCallEnv := ⟨some [Msg.frame (some c2resp)], none, none⟩

/-- A receive-loop state whose socket is about to report a graceful close,
with a successful reconnect outcome scripted and a handler registered. -/
def c3state : LoopState :=
  ⟨some [Msg.closedOK], [some [Msg.frame (some (Json.obj []))]], true, []⟩

/-- A server-initiated notification: no `id` field at all. -/
def c4notif : Json :=
  Json.obj [("jsonrpc", Json.str "2.0"), ("method", Json.str "notify_status_update"),
    ("params", Json.arr [Json.obj []])]

/-- An open socket whose next incoming frame is the notification. -/
def c4env : WSCallEnv := ⟨some [Msg.frame (some c4notif)], none, none⟩

/-- A manager whose loop thread is alive (started, connected). -/
def m6 : MgrState := ⟨some true, true, some 0, some [], true, 1, []⟩

/-- A running manager with an open socket, about to be stopped. -/
def m7 : MgrState := ⟨some true, true, some 0, some [Msg.frame none], true, 1, []⟩

/-- An environment with credentials set and an open socket. -/
def env9 : WSCallEnv := ⟨some [], some "alice", some "secret"⟩

/-- A caller-supplied params dict holding two falsy entries (`False` and
`0`) and one truthy entry. -/
def p9 : List (String × Json) :=
  [("a", Json.bool false), ("b", Json.str "x"), ("c", Json.num 0)]

/-- A dict entry whose key is not among the keys still to be visited is left
untouched by the falsy-stripping loop. -/
theorem popFalsy_cons_notmem (ks : List String) (k : String) (v : Json)
    (d : List (String × Json)) (hk : k ∉ ks) :
    popFalsy ks ((k, v) :: d) = (k, v) :: popFalsy ks d := by
  induction ks generalizing d with
  | nil => rfl
  | cons k2 ks2 ih =>
      have hne : k ≠ k2 := fun h => hk (h ▸ List.mem_cons_self k2 ks2)
      have hks2 : k ∉ ks2 := fun h => hk (List.mem_cons_of_mem k2 h)
      have hfind : dictFind ((k, v) :: d) k2 = dictFind d k2 := by
        unfold dictFind
        rw [List.find?_cons_of_neg]
        simpa using hne
      show popFalsy (k2 :: ks2) ((k, v) :: d) = (k, v) :: popFalsy (k2 :: ks2) d
      unfold popFalsy
      rw [hfind]
      cases hd : dictFind d k2 with
      | none => exact ih d hks2
      | some v2 =>
          by_cases hf : v2.falsy
          · have hpop : dictPop ((k, v) :: d) k2 = (k, v) :: dictPop d k2 := by
              unfold dictPop
              rw [List.eraseP_cons_of_neg]
              simpa using hne
            simp only [hf, if_true, hpop]
            exact ih (dictPop d k2) hks2
          · simp only [hf, if_neg, Bool.false_eq_true, not_false_iff, if_false]
            exact ih d hks2

/-- The falsy-stripping loop of `__ws_call`, run over a snapshot of the
keys of the dict, is exactly a filter keeping the truthy-valued entries (Python
dict keys are unique). -/
theorem popFalsy_eq_filter (d : List (String × Json))
    (hnd : (d.map (fun kv => kv.1)).Nodup) :
    popFalsy (d.map (fun kv => kv.1)) d = d.filter (fun kv => !(kv.2.falsy)) := by
  induction d with
  | nil => rfl
  | cons kv d2 ih =>
      obtain ⟨k, v⟩ := kv
      rw [List.map_cons, List.nodup_cons] at hnd
      obtain ⟨hk, hnd2⟩ := hnd
      rw [List.map_cons]
      show popFalsy (k :: d2.map (fun kv => kv.1)) ((k, v) :: d2) = _
      unfold popFalsy
      have hfind : dictFind ((k, v) :: d2) k = some v := by
        unfold dictFind
        rw [List.find?_cons_of_pos _ (by simp)]
        rfl
      rw [hfind]
      by_cases hf : v.falsy
      · have hpop : dictPop ((k, v) :: d2) k = d2 := by
          unfold dictPop
          rw [List.eraseP_cons_of_pos (by simp)]
        simp only [hf, if_true, hpop, List.filter_cons]
        simpa using ih hnd2
      · simp only [hf, if_neg, Bool.false_eq_true, not_false_iff, if_false]
        rw [popFalsy_cons_notmem _ _ _ _ hk, ih hnd2, List.filter_cons]
        simp [hf]

/-- Unfolding equation for `removeSep` on a cons that does not start the
separator `://`. -/
theorem removeSep_cons_ne (c : Char) (rest : List Char)
    (hne : ∀ rest2, c = ':' → rest = '/' :: '/' :: rest2 → False) :
    removeSep (c :: rest) = c :: removeSep rest := by
  rw [removeSep.eq_def]
  split
  · rename_i r heq
    injection heq with e1 e2
    exact (hne r e1 e2).elim
  · rename_i c2 r heq
    injection heq with e1 e2
    rw [e1, e2]
  · rename_i heq
    exact absurd heq (by simp)

/-- Removing `://` occurrences never introduces characters: membership in
the result implies membership in the argument. -/
theorem mem_removeSep (a : Char) (t : List Char) (h : a ∈ removeSep t) : a ∈ t := by
  induction t using removeSep.induct with
  | case1 rest ih =>
      exact List.mem_cons_of_mem _ (List.mem_cons_of_mem _ (List.mem_cons_of_mem _ (ih h)))
  | case2 c rest hne ih =>
      rw [removeSep_cons_ne c rest hne] at h
      rcases List.mem_cons.mp h with h1 | h2
      · exact h1 ▸ List.mem_cons_self a rest
      · exact List.mem_cons_of_mem _ (ih h2)
  | case3 => exact h

/-- Stripping trailing slashes from `x ++ t` stops inside `t` whenever `t`
has a non-slash character. -/
theorem pyRstrip_append (x t : List Char) (h : t.any (fun a => !(a == '/')) = true) :
    pyRstrip '/' (x ++ t) = x ++ pyRstrip '/' t := by
  unfold pyRstrip
  rw [List.reverse_append, List.dropWhile_append]
  have hne : (t.reverse.dropWhile (fun a => a == '/')).isEmpty = false := by
    rcases List.any_eq_true.mp h with ⟨a, ha, hpa⟩
    cases hcase : (t.reverse.dropWhile (fun a => a == '/')).isEmpty with
    | false => rfl
    | true =>
        rw [List.isEmpty_iff, List.dropWhile_eq_nil_iff] at hcase
        have := hcase a (List.mem_reverse.mpr ha)
        rw [this] at hpa
        exact absurd hpa (by simp)
  rw [hne]
  simp only [Bool.false_eq_true, if_false, List.reverse_append, List.reverse_reverse]

/-- A prefix of a list stays a prefix after appending on the right. -/
theorem isPrefixOf_append_right (p u y : List Char) (h : p.isPrefixOf u = true) :
    p.isPrefixOf (u ++ y) = true := by
  rw [List.isPrefixOf_iff_prefix] at h ⊢
  exact h.trans (List.prefix_append u y)

/-- Every list is a prefix of itself followed by anything. -/
theorem isPrefixOf_self_append (p y : List Char) : p.isPrefixOf (p ++ y) = true := by
  rw [List.isPrefixOf_iff_prefix]
  exact List.prefix_append p y

/-- Every list is a suffix of anything followed by itself. -/
theorem isSuffixOf_append_self (s x : List Char) : s.isSuffixOf (x ++ s) = true := by
  rw [List.isSuffixOf_iff_suffix]
  exact List.suffix_append x s

/-- Computing `removeSep` across the scheme characters. -/
theorem removeSep_scheme (t : List Char) :
    removeSep (wsScheme ++ t) = 'w' :: 's' :: removeSep t := rfl

/-- The URL built by `__init__` always starts with the characters `ws://`. -/
theorem wsScheme_isPrefixOf_initUrl (u : List Char) :
    wsScheme.isPrefixOf (initUrl u) = true := by
  obtain ⟨t, ht⟩ : ∃ t, addScheme u = wsScheme ++ t := by
    unfold addScheme
    by_cases h : wsScheme.isPrefixOf u = true
    · rw [if_pos h]
      rw [List.isPrefixOf_iff_prefix] at h
      obtain ⟨t, ht⟩ := h
      exact ⟨t, ht.symm⟩
    · rw [if_neg h]
      exact ⟨u, rfl⟩
  unfold initUrl
  rw [ht]
  unfold addPort
  by_cases hc : pyContains ':' (removeSep (wsScheme ++ t)) = true
  · rw [if_pos hc]
    unfold addPath
    by_cases hs : wsPath.isSuffixOf (wsScheme ++ t) = true
    · rw [if_pos hs]
      exact isPrefixOf_self_append wsScheme t
    · rw [if_neg hs]
      have htany : t.any (fun a => !(a == '/')) = true := by
        rw [removeSep_scheme] at hc
        unfold pyContains at hc
        simp only [List.any_cons] at hc
        have hcolon : (removeSep t).any (fun x => x == ':') = true := by
          simpa using hc
        rcases List.any_eq_true.mp hcolon with ⟨a, ha, hpa⟩
        have ha2 : a ∈ t := mem_removeSep a t ha
        refine List.any_eq_true.mpr ⟨a, ha2, ?_⟩
        have : a = ':' := by simpa using hpa
        rw [this]
        rfl
      rw [pyRstrip_append wsScheme t htany, List.append_assoc]
      exact isPrefixOf_self_append wsScheme _
  · rw [if_neg hc]
    unfold addPath
    by_cases hs : wsPath.isSuffixOf (wsScheme ++ t ++ portSeg) = true
    · rw [if_pos hs, List.append_assoc]
      exact isPrefixOf_self_append wsScheme _
    · rw [if_neg hs]
      have hpany : portSeg.any (fun a => !(a == '/')) = true := by rfl
      rw [pyRstrip_append (wsScheme ++ t) portSeg hpany, List.append_assoc,
        List.append_assoc]
      exact isPrefixOf_self_append wsScheme _

/-- The URL built by `__init__` always ends with the characters
`/websocket`. -/
theorem wsPath_isSuffixOf_initUrl (u : List Char) :
    wsPath.isSuffixOf (initUrl u) = true := by
  unfold initUrl addPath
  by_cases hs : wsPath.isSuffixOf (addPort (addScheme u)) = true
  · rw [if_pos hs]
    exact hs
  · rw [if_neg hs]
    exact isSuffixOf_append_self wsPath _

/-- A URL that already starts with `ws://`, keeps a colon after removing all
`://` occurrences, and already ends with `/websocket` passes through
`__init__` unchanged. -/
theorem initUrl_preserves (u : List Char)
    (h1 : wsScheme.isPrefixOf u = true)
    (h2 : pyContains ':' (removeSep u) = true)
    (h3 : wsPath.isSuffixOf u = true) :
    initUrl u = u := by
  have e1 : addScheme u = u := by
    unfold addScheme
    rw [if_pos h1]
  have e2 : addPort u = u := by
    unfold addPort
    rw [if_pos h2]
  have e3 : addPath u = u := by
    unfold addPath
    rw [if_pos h3]
  unfold initUrl
  rw [e1, e2, e3]

/-- Helper: when the next incoming event is a decoded object frame, the
value `__ws_call` returns is the `result` field of that frame (empty-dict
default) — a function of that field alone. -/
theorem ws_call_ret_of_frame (env : WSCallEnv) (path : String)
    (params : List (String × Json)) (genId : Nat) (f : List (String × Json))
    (rest : List Msg)
    (h : env.ws = some (Msg.frame (some (Json.obj f)) :: rest)) :
    (ws_call env path params genId).ret
      = some ((dictFind f "result").getD (Json.obj [])) := by
  unfold ws_call
  rw [h]
  rfl

/-- C1 counterexample: the next incoming frame carries correlation id 1,
the call generated id 2, yet the call returns the result of that frame — the
result is not taken from a response whose correlation id equals the id
generated for the request envelope. -/
theorem ws_call_mismatched_id_result :
    jsonLookup c1frame "id" = some (Json.num 1)
    ∧ (ws_call c1env "/printer/info" [] 2).ret = some (Json.str "other")
    ∧ (1 : Int) ≠ 2 :=
  ⟨rfl, rfl, by decide⟩

/-- C1 (amended): `__ws_call` performs no correlation-id matching: the value
it returns does not depend on the id it generated for the request envelope,
and for a decoded object frame it is determined by the `result` field of
the frame alone, never by its id — so a response meant for a concurrent
call, or any other next frame, is returned verbatim. -/
theorem ws_call_result_id_independent :
    (∀ (env : WSCallEnv) (path : String) (params : List (String × Json))
        (id1 id2 : Nat),
      (ws_call env path params id1).ret = (ws_call env path params id2).ret)
    ∧ (∀ (env env2 : WSCallEnv) (path path2 : String)
        (params params2 : List (String × Json)) (id1 id2 : Nat)
        (f f2 : List (String × Json)) (rest rest2 : List Msg),
      env.ws = some (Msg.frame (some (Json.obj f)) :: rest) →
      env2.ws = some (Msg.frame (some (Json.obj f2)) :: rest2) →
      dictFind f "result" = dictFind f2 "result" →
      (ws_call env path params id1).ret = (ws_call env2 path2 params2 id2).ret) := by
  constructor
  · intro env path params id1 id2
    obtain ⟨ws, un, pw⟩ := env
    unfold ws_call
    cases ws with
    | none => rfl
    | some q =>
        cases q with
        | nil => rfl
        | cons m rest =>
            cases m with
            | frame d =>
                cases d with
                | none => rfl
                | some j => cases j <;> rfl
            | closedOK => rfl
            | closedErr => rfl
  · intro env env2 path path2 params params2 id1 id2 f f2 rest rest2 h h2 hres
    rw [ws_call_ret_of_frame env path params id1 f rest h,
      ws_call_ret_of_frame env2 path2 params2 id2 f2 rest2 h2, hres]

/-- C1 witness: two calls against different sockets, different paths and
different generated ids whose next frames agree on the `result` field
return the same value. -/
theorem ws_call_result_id_independent_witness :
    (ws_call ⟨some [Msg.frame (some (Json.obj [("result", Json.str "r")]))], none, none⟩
        "/a" [] 1).ret
      = (ws_call ⟨some [Msg.frame (some (Json.obj [("id", Json.num 9),
          ("result", Json.str "r")]))], none, none⟩ "/b" [] 2).ret :=
  ws_call_result_id_independent.2 _ _ "/a" "/b" [] [] 1 2 _ _ _ _ rfl rfl rfl

/-- C2 counterexample: when the server replies with a JSON-RPC error object,
the call does not fail with a `RemoteError` carrying the server-supplied
code and message — no such error kind exists in the code — it returns the
empty mapping, the default of the `result` lookup. -/
theorem ws_call_error_returns_empty_obj :
    jsonLookup c2resp "error"
        = some (Json.obj [("code", Json.num 400), ("message", Json.str "Bad Request")])
    ∧ (ws_call c2env "/printer/info" [] 7).ret = some (Json.obj []) :=
  ⟨rfl, rfl⟩

/-- C2 (amended): a foreground call never raises: a response without a
`result` field (in particular a JSON-RPC error response) yields the empty
mapping, and an abnormal close, a graceful close or a decode failure during
the reply each yield Python `None` — the exception is caught, printed and
swallowed inside `__ws_call`. -/
theorem ws_call_never_raises (env : WSCallEnv) (path : String)
    (params : List (String × Json)) (genId : Nat) (f : List (String × Json))
    (rest : List Msg) :
    (env.ws = some (Msg.frame (some (Json.obj f)) :: rest) →
        f.find? (fun kv => kv.1 == "result") = none →
        (ws_call env path params genId).ret = some (Json.obj []))
    ∧ (env.ws = some (Msg.closedErr :: rest) →
        (ws_call env path params genId).ret = none)
    ∧ (env.ws = some (Msg.closedOK :: rest) →
        (ws_call env path params genId).ret = none)
    ∧ (env.ws = some (Msg.frame none :: rest) →
        (ws_call env path params genId).ret = none) := by
  refine ⟨?_, ?_, ?_, ?_⟩
  · intro h hf
    rw [ws_call_ret_of_frame env path params genId f rest h]
    unfold dictFind
    rw [hf]
    rfl
  · intro h
    unfold ws_call
    rw [h]
  · intro h
    unfold ws_call
    rw [h]
  · intro h
    unfold ws_call
    rw [h]

/-- C2 witness: a concrete error-only response makes the call return the
empty mapping. -/
theorem ws_call_never_raises_witness :
    (ws_call ⟨some [Msg.frame (some (Json.obj [("error",
        Json.obj [("code", Json.num 400)])]))], none, none⟩ "/x" [] 0).ret
      = some (Json.obj []) :=
  (ws_call_never_raises _ "/x" [] 0 [("error", Json.obj [("code", Json.num 400)])] []).1
    rfl rfl

/-- C3 counterexample: with the socket reporting a graceful close and a
successful reconnect outcome scripted, the receive loop executes `break`:
it terminates instead of returning to the reconnect step. -/
theorem loopStep_graceful_close_breaks :
    loopStep c3state
      = StepOut.brk ⟨none, [some [Msg.frame (some (Json.obj []))]], true, []⟩ :=
  rfl

/-- C3 (amended): on a graceful close the receive loop drops the socket
reference and terminates via `break` (there is no pending-request table to
cancel); only on an abnormal close does it drop the socket, sleep and
continue, and from the disconnected state a scripted successful connect
re-establishes the connection and resumes processing without `start()`
being called again. -/
theorem loopStep_close_behavior :
    (∀ (s : LoopState) (rest : List Msg), s.ws = some (Msg.closedOK :: rest) →
        loopStep s = StepOut.brk { s with ws := none })
    ∧ (∀ (s : LoopState) (rest : List Msg), s.ws = some (Msg.closedErr :: rest) →
        loopStep s = StepOut.cont { s with ws := none })
    ∧ (∀ (s : LoopState) (cs : List (Option (List Msg))) (j : Json) (q : List Msg),
        s.ws = none → s.connects = some (Msg.frame (some j) :: q) :: cs →
        s.handlerRegistered = true →
        loopStep s = StepOut.cont { s with
          ws := some q,
          connects := cs,
          handlerCalls := s.handlerCalls ++ [j] }) := by
  refine ⟨?_, ?_, ?_⟩
  · intro s rest h
    obtain ⟨ws, cs, hr, hc⟩ := s
    simp only at h
    subst h
    rfl
  · intro s rest h
    obtain ⟨ws, cs, hr, hc⟩ := s
    simp only at h
    subst h
    rfl
  · intro s cs j q h h2 hr
    obtain ⟨ws, cs0, hreg, hc⟩ := s
    simp only at h h2 hr
    subst h
    subst h2
    subst hr
    rfl

/-- C3 witness: concrete states exercising all three conjuncts — graceful
close breaks, abnormal close continues disconnected, and a scripted
reconnect resumes delivery. -/
theorem loopStep_close_behavior_witness :
    loopStep ⟨some [Msg.closedErr], [], true, []⟩
        = StepOut.cont ⟨none, [], true, []⟩
    ∧ loopStep ⟨none, [some [Msg.frame (some Json.null)]], true, []⟩
        = StepOut.cont ⟨some [], [], true, [Json.null]⟩ := by
  constructor
  · exact loopStep_close_behavior.2.1 ⟨some [Msg.closedErr], [], true, []⟩ [] rfl
  · exact loopStep_close_behavior.2.2 ⟨none, [some [Msg.frame (some Json.null)]], true, []⟩
      [] Json.null [] rfl rfl rfl

/-- C4 counterexample: a frame with no `id` field at all — a server-initiated
notification matching no outstanding request — arrives while `__ws_call`
awaits its reply: the call consumes it and resolves with the `result`
lookup (empty-dict default), so the message does fulfill a pending call
(and `__ws_call` never touches the notification handler). -/
theorem ws_call_notification_resolves_call :
    jsonLookup c4notif "id" = none
    ∧ (ws_call c4env "/printer/info" [] 5).ret = some (Json.obj []) :=
  ⟨rfl, rfl⟩

/-- C4 (amended): the receive loop maintains no outstanding-request table
and never inspects correlation ids: every decoded frame it reads is handed
to the registered handler exactly once, whatever its id; a frame that is
instead consumed by a concurrently awaiting `__ws_call` resolves that call
and bypasses the handler. -/
theorem loopStep_delivers_every_frame (s : LoopState) (j : Json) (rest : List Msg)
    (h : s.ws = some (Msg.frame (some j) :: rest)) (hr : s.handlerRegistered = true) :
    loopStep s
      = StepOut.cont { s with ws := some rest, handlerCalls := s.handlerCalls ++ [j] } := by
  obtain ⟨ws, cs, hreg, hc⟩ := s
  simp only at h hr
  subst h
  subst hr
  rfl

/-- C4 witness: a decoded response-shaped frame carrying id 5 is delivered
to the handler by the receive loop. -/
theorem loopStep_delivers_every_frame_witness :
    loopStep ⟨some [Msg.frame (some c1frame)], [], true, []⟩
      = StepOut.cont ⟨some [], [], true, [c1frame]⟩ :=
  loopStep_delivers_every_frame ⟨some [Msg.frame (some c1frame)], [], true, []⟩
    c1frame [] rfl rfl

/-- C5 counterexample: the input `wss://example.com` already carries a
ws-style scheme, yet `__init__` prepends another `ws://` (it only tests for
the literal `ws://`), yielding a double-scheme URL. -/
theorem initUrl_wss_double_scheme :
    ("wss://".data).isPrefixOf ("wss://example.com".data) = true
    ∧ initUrl ("wss://example.com".data)
        = ("ws://wss://example.com:7125/websocket".data) :=
  ⟨rfl, rfl⟩

/-- C5 (amended): the URL derived by `__init__` always starts with the
literal `ws://` (prepended whenever the input does not itself start with
that literal, even if another scheme such as `wss://` is present) and always
ends with `/websocket`; an input that already starts with `ws://`, still
contains a colon after removing the `://` occurrences (e.g. an explicit
port) and already ends with `/websocket` is passed through unchanged. -/
theorem initUrl_spec (u : List Char) :
    wsScheme.isPrefixOf (initUrl u) = true
    ∧ wsPath.isSuffixOf (initUrl u) = true
    ∧ (wsScheme.isPrefixOf u = true → pyContains ':' (removeSep u) = true →
        wsPath.isSuffixOf u = true → initUrl u = u) :=
  ⟨wsScheme_isPrefixOf_initUrl u, wsPath_isSuffixOf_initUrl u, initUrl_preserves u⟩

/-- C5 witness: a fully specified URL is preserved verbatim. -/
theorem initUrl_spec_witness :
    initUrl ("ws://example.com:7125/websocket".data)
      = ("ws://example.com:7125/websocket".data) :=
  (initUrl_spec ("ws://example.com:7125/websocket".data)).2.2 rfl rfl rfl

/-- C6: calling `start_websocket_loop` while the loop thread is alive
returns the state unchanged: no new thread is spawned (the spawn counter is
untouched), no new event loop or receive task is created, and the
registered handler and connection state are exactly as before. -/
theorem start_websocket_loop_idempotent (m : MgrState) (hdlr : Nat)
    (hrun : m.loopThread = some true) :
    start_websocket_loop m hdlr = m := by
  unfold start_websocket_loop
  rw [if_pos hrun]

/-- C6 witness: a running manager is left untouched by a second start. -/
theorem start_websocket_loop_idempotent_witness :
    start_websocket_loop m6 7 = m6 :=
  start_websocket_loop_idempotent m6 7 rfl

/-- C7 counterexample: stopping a running manager whose socket is open
leaves the event loop stopped after both the first and the second stop, yet
`self.ws` still holds the socket object: the close is only scheduled as a
task that the immediately following loop stop prevents from ever running,
so the manager is not left with no open socket. -/
theorem stop_leaves_socket_reference :
    m7.eventLoopRunning = true
    ∧ (stop_websocket_loop (stop_websocket_loop m7)).eventLoopRunning = false
    ∧ (stop_websocket_loop (stop_websocket_loop m7)).ws = some [Msg.frame none] :=
  ⟨rfl, rfl, rfl⟩

/-- C7 (amended): `stop_websocket_loop` is idempotent — a second stop is the
identity and raises nothing (the model is total; the else branch of the
source only prints) — and after any stop the event loop is not running;
stopping a running manager also leaves a dead loop thread and a cancelled
receive task, which the second stop preserves.  The socket reference,
however, is never cleared by a stop: the scheduled close task does not run
before the loop exits, so `self.ws` is exactly what it was before. -/
theorem stop_websocket_loop_idempotent (m : MgrState) :
    stop_websocket_loop (stop_websocket_loop m) = stop_websocket_loop m
    ∧ (stop_websocket_loop m).eventLoopRunning = false
    ∧ (stop_websocket_loop m).ws = m.ws
    ∧ (m.eventLoopRunning = true →
        (stop_websocket_loop (stop_websocket_loop m)).loopThread = some false
        ∧ (stop_websocket_loop (stop_websocket_loop m)).receiveTaskActive = false) := by
  by_cases h : m.eventLoopRunning = true
  · refine ⟨?_, ?_, ?_, ?_⟩
    · unfold stop_websocket_loop
      rw [if_pos h]
      simp
    · unfold stop_websocket_loop
      rw [if_pos h]
    · unfold stop_websocket_loop
      rw [if_pos h]
    · intro _
      unfold stop_websocket_loop
      rw [if_pos h]
      simp
  · have e : stop_websocket_loop m = m := by
      unfold stop_websocket_loop
      rw [if_neg h]
    refine ⟨by rw [e]; exact e, ?_, by rw [e], fun hc => absurd hc h⟩
    rw [e]
    exact Bool.eq_false_iff.mpr h

/-- C7 witness: stopping a running manager twice ends with a dead loop
thread and a cancelled receive task. -/
theorem stop_websocket_loop_idempotent_witness :
    (stop_websocket_loop (stop_websocket_loop m7)).loopThread = some false
    ∧ (stop_websocket_loop (stop_websocket_loop m7)).receiveTaskActive = false :=
  (stop_websocket_loop_idempotent m7).2.2.2 rfl

/-- C8: a frame whose JSON decoding raises is caught inside the loop body
(logged, short sleep): the loop continues with the frame discarded, it does
not break, and the socket reference is kept — `self.ws` is not dropped. -/
theorem loopStep_decode_error_continues (s : LoopState) (rest : List Msg)
    (h : s.ws = some (Msg.frame none :: rest)) :
    loopStep s = StepOut.cont { s with ws := some rest } := by
  obtain ⟨ws, cs, hreg, hc⟩ := s
  simp only at h
  subst h
  rfl

/-- C8 witness: a malformed frame followed by a good one: the loop survives
the bad frame with the socket kept. -/
theorem loopStep_decode_error_continues_witness :
    loopStep ⟨some [Msg.frame none, Msg.frame (some Json.null)], [], true, []⟩
      = StepOut.cont ⟨some [Msg.frame (some Json.null)], [], true, []⟩ :=
  loopStep_decode_error_continues
    ⟨some [Msg.frame none, Msg.frame (some Json.null)], [], true, []⟩
    [Msg.frame (some Json.null)] rfl

/-- C9: when a socket is open, `__ws_call` mutates the params dict of the
caller in place — after the call that mapping is exactly the original
filtered down to its truthy-valued entries with the credential entries
injected — and the transmitted envelope carries that very mapping, so a
falsy argument such as an explicit `False` is never sent. -/
theorem ws_call_params_mutation (env : WSCallEnv) (path : String)
    (params : List (String × Json)) (genId : Nat) (q : List Msg)
    (hws : env.ws = some q)
    (hnd : (params.map (fun kv => kv.1)).Nodup) :
    (ws_call env path params genId).params
        = credAdd env (params.filter (fun kv => !(kv.2.falsy)))
    ∧ (ws_call env path params genId).sent
        = [wsEnvelope path (credAdd env (params.filter (fun kv => !(kv.2.falsy)))) genId] := by
  have hp : popFalsy (params.map (fun kv => kv.1)) params
      = params.filter (fun kv => !(kv.2.falsy)) := popFalsy_eq_filter params hnd
  unfold ws_call
  rw [hws]
  cases q with
  | nil => exact ⟨by rw [← hp]; try rfl, by rw [← hp]; try rfl⟩
  | cons m rest =>
      cases m with
      | frame d =>
          cases d with
          | none => exact ⟨by rw [← hp]; try rfl, by rw [← hp]; try rfl⟩
          | some j =>
              cases j <;> exact ⟨by rw [← hp]; try rfl, by rw [← hp]; try rfl⟩
      | closedOK => exact ⟨by rw [← hp]; try rfl, by rw [← hp]; try rfl⟩
      | closedErr => exact ⟨by rw [← hp]; try rfl, by rw [← hp]; try rfl⟩

/-- C9 witness: a dict with falsy entries under credentials ends up, as
seen by the caller, stripped of them and extended with the credentials. -/
theorem ws_call_params_mutation_witness :
    (ws_call env9 "/access/login" p9 1).params
      = [("b", Json.str "x"), ("username", Json.str "alice"),
          ("password", Json.str "secret")] := by
  have h := (ws_call_params_mutation env9 "/access/login" p9 1 [] rfl (by decide)).1
  rw [h]
  rfl

/-- C10: a call reaching `__ws_call` while `self.ws` is `None` returns
Python `None` immediately: nothing is sent, the params dict of the caller is not
touched, and the socket state is unchanged. -/
theorem ws_call_disconnected_returns_none (env : WSCallEnv) (path : String)
    (params : List (String × Json)) (genId : Nat) (h : env.ws = none) :
    ws_call env path params genId = ⟨none, params, [], none⟩ := by
  unfold ws_call
  rw [h]

/-- C10 witness: a concrete disconnected call fails immediately with `None`
and no side effects. -/
theorem ws_call_disconnected_returns_none_witness :
    ws_call ⟨none, none, none⟩ "/printer/info" [("x", Json.num 1)] 3
      = ⟨none, [("x", Json.num 1)], [], none⟩ :=
  ws_call_disconnected_returns_none ⟨none, none, none⟩ "/printer/info"
    [("x", Json.num 1)] 3 rfl
